import Mathlib

/-!
Verification of the honkpatrol traffic/arcade game core against its source.

The relevant code lives in src/js/game.js (Game orchestrator), src/js/bird.js
(player agent), src/unnamed/part_001 (Vehicle class, second and most complete
revision, lines 289-1569) and src/unnamed/part_002 (Fire effect).  JavaScript
numbers are embedded as rationals, scores as integers; wall-clock reads
(Date.now) become an explicit `now` parameter; the audio layer is out of the
core state, only the flags the core keeps are modelled.
-/

namespace HonkPatrol

/-- Vehicle classes from part_001 line 340: car, truck, bus, emergency. -/
inductive VehicleType where
  | car
  | truck
  | bus
  | emergency
  deriving DecidableEq, Repr

/-- Travel direction of a vehicle (part_001 line 337). -/
inductive Direction where
  | left
  | right
  deriving DecidableEq, Repr

/-- Fire effect created on a crash (part_002, constructor lines 14-24).
Only the core fields are kept; animation bookkeeping follows the same shape. -/
structure Fire where
  x : ℚ
  y : ℚ
  width : ℚ
  height : ℚ
  duration : ℚ
  timer : ℚ
  deriving DecidableEq, Repr

/-- One honk sound wave (radius, opacity), part_001 lines 969-972. -/
structure SoundWave where
  radius : ℚ
  opacity : ℚ
  deriving DecidableEq, Repr

/-- State of one vehicle, from the constructor of the second Vehicle revision
in part_001 (lines 331-463).  Position and sizes are rationals; the cached
half extents from calculateVehicleDimensions are carried explicitly. -/
structure Vehicle where
  type : VehicleType
  direction : Direction
  lane : ℕ
  x : ℚ
  y : ℚ
  width : ℚ
  height : ℚ
  halfWidth : ℚ
  halfHeight : ℚ
  speed : ℚ
  originalSpeed : ℚ
  targetSpeed : ℚ
  hasCrashed : Bool
  crashTimer : ℚ
  crashDuration : ℚ
  fire : Option Fire
  hitByPoop : Bool
  hitTimer : ℚ
  hitDuration : ℚ
  isHonking : Bool
  lastHonkTime : ℚ
  honkGracePeriod : ℚ
  honkTimer : ℚ
  honkCooldown : ℚ
  soundWaves : List SoundWave
  deriving DecidableEq, Repr

/-- part_001 lines 1070-1073: a vehicle counts as honking when its honk flag
is set or its last honk was within the grace period.  Date.now() is passed
in as `now` (seconds). -/
def Vehicle.isCurrentlyHonking (v : Vehicle) (now : ℚ) : Bool :=
  v.isHonking || decide (now - v.lastHonkTime < v.honkGracePeriod)

/-- part_001 lines 1441-1444: hit duration by power level; any level other
than 2-5 gets the 3 second default. -/
def hitDurationFor (powerLevel : ℕ) : ℚ :=
  if powerLevel = 5 then 0
  else if powerLevel = 4 then 1/2
  else if powerLevel = 3 then 1
  else if powerLevel = 2 then 2
  else 3

/-- part_001 lines 1417-1454, Vehicle.handleHit.  Returns the score delta and
the updated vehicle.  A vehicle already hit returns 0 untouched; otherwise the
honk state is captured, honking stops, the sound waves clear, the hit flag and
timers are set, and the delta is -15 for emergency vehicles, 5 for a honking
ordinary vehicle and -10 for a silent one. -/
def Vehicle.handleHit (v : Vehicle) (powerLevel : ℕ) (now : ℚ) : ℤ × Vehicle :=
  if v.hitByPoop then (0, v)
  else
    let wasHonking := v.isCurrentlyHonking now
    let v' := { v with
      isHonking := false
      soundWaves := []
      hitByPoop := true
      hitTimer := 0
      hitDuration := hitDurationFor powerLevel }
    if v.type = VehicleType.emergency then (-15, v')
    else if wasHonking then (5, v') else (-10, v')

/-- part_001 lines 1124-1165, Vehicle.crash.  The Bool reports whether this
call actually crashed the vehicle (created the fire and dispatched the crash
event); an already crashed vehicle returns unchanged with false. -/
def Vehicle.crash (v : Vehicle) : Vehicle × Bool :=
  if v.hasCrashed then (v, false)
  else
    ({ v with
        hasCrashed := true
        speed := 0
        targetSpeed := 0
        crashTimer := 0
        fire := some ⟨v.x, v.y, v.width * (3/2), v.height * (9/5), v.crashDuration, 0⟩
        isHonking := false }, true)

/-- part_001 lines 1089-1093: axis-aligned bounding box overlap using the
cached half extents. -/
def boxesOverlap (a b : Vehicle) : Bool :=
  decide (a.x - a.halfWidth < b.x + b.halfWidth) &&
  decide (a.x + a.halfWidth > b.x - b.halfWidth) &&
  decide (a.y - a.halfHeight < b.y + b.halfHeight) &&
  decide (a.y + a.halfHeight > b.y - b.halfHeight)

/-- part_001 lines 1097-1099: the two vehicles travel in opposite directions. -/
def isOppositeDirection (a b : Vehicle) : Bool :=
  (decide (a.direction = Direction.left) && decide (b.direction = Direction.right)) ||
  (decide (a.direction = Direction.right) && decide (b.direction = Direction.left))

/-- part_001 lines 1103-1104: slow means below 30 percent of the own original
speed in absolute terms. -/
def Vehicle.isSlow (v : Vehicle) : Bool :=
  decide (|v.speed| < |v.originalSpeed| * (3/10))

/-- The body of the collision loop in part_001 lines 1079-1119
(checkForVehicleCollisions) for one candidate pair: skip when either party
has crashed or the boxes do not overlap; ghost through when both are slow or
the directions agree; otherwise crash both. -/
def resolveCollisionPair (a b : Vehicle) : Vehicle × Vehicle :=
  if a.hasCrashed then (a, b)
  else if b.hasCrashed then (a, b)
  else if !(boxesOverlap a b) then (a, b)
  else if (a.isSlow && b.isSlow) || !(isOppositeDirection a b) then (a, b)
  else ((a.crash).1, (b.crash).1)

/-- part_001 lines 531-538: the hit-timer block at the top of Vehicle.update.
The timer advances and the vehicle is removed (none) once it reaches the hit
duration; otherwise the updated vehicle continues through the rest of update. -/
def Vehicle.updateHitPhase (v : Vehicle) (dt : ℚ) : Option Vehicle :=
  if v.hitByPoop then
    let v' := { v with hitTimer := v.hitTimer + dt }
    if v'.hitDuration ≤ v'.hitTimer then none else some v'
  else some v

/-- A concrete ordinary car used to instantiate hypotheses in witnesses. -/
def sampleCar : Vehicle where
  type := VehicleType.car
  direction := Direction.right
  lane := 2
  x := 100
  y := 200
  width := 60
  height := 30
  halfWidth := 30
  halfHeight := 15
  speed := 80
  originalSpeed := 80
  targetSpeed := 80
  hasCrashed := false
  crashTimer := 0
  crashDuration := 3
  fire := none
  hitByPoop := false
  hitTimer := 0
  hitDuration := 3
  isHonking := true
  lastHonkTime := 0
  honkGracePeriod := 10
  honkTimer := 0
  honkCooldown := 0
  soundWaves := []

/-- A concrete leftbound bus overlapping sampleCar, for collision witnesses. -/
def sampleBus : Vehicle where
  type := VehicleType.bus
  direction := Direction.left
  lane := 2
  x := 120
  y := 200
  width := 100
  height := 30
  halfWidth := 50
  halfHeight := 15
  speed := -90
  originalSpeed := -90
  targetSpeed := -90
  hasCrashed := false
  crashTimer := 0
  crashDuration := 3
  fire := none
  hitByPoop := false
  hitTimer := 0
  hitDuration := 3
  isHonking := false
  lastHonkTime := -100
  honkGracePeriod := 10
  honkTimer := 0
  honkCooldown := 0
  soundWaves := []

/-- Claim C3: on a fresh projectile hit, an emergency vehicle always returns
the fixed -15 penalty regardless of honk state, an ordinary vehicle returns
the positive delta 5 while honking and the negative delta -10 while silent. -/
theorem C3_handleHit_score_sign (v : Vehicle) (lvl : ℕ) (now : ℚ)
    (h : v.hitByPoop = false) :
    (v.type = VehicleType.emergency → (v.handleHit lvl now).1 = -15) ∧
    (v.type ≠ VehicleType.emergency → v.isCurrentlyHonking now = true →
      (v.handleHit lvl now).1 = 5 ∧ 0 < (v.handleHit lvl now).1) ∧
    (v.type ≠ VehicleType.emergency → v.isCurrentlyHonking now = false →
      (v.handleHit lvl now).1 = -10 ∧ (v.handleHit lvl now).1 < 0) := by
  unfold Vehicle.handleHit
  refine ⟨fun he => ?_, fun hne hh => ?_, fun hne hh => ?_⟩
  · simp [h, he]
  · simp [h, hne, hh]
  · simp [h, hne, hh]

/-- Witness for C3 at the concrete honking sampleCar. -/
theorem C3_handleHit_score_sign_witness :
    sampleCar.hitByPoop = false ∧
    (sampleCar.type ≠ VehicleType.emergency → sampleCar.isCurrentlyHonking 0 = true →
      (sampleCar.handleHit 1 0).1 = 5 ∧ 0 < (sampleCar.handleHit 1 0).1) :=
  ⟨by decide, (C3_handleHit_score_sign sampleCar 1 0 (by decide)).2.1⟩

/-- Claim C4: for an overlapping pair of non-crashed vehicles, if both are
below 30 percent of their own original speed the pair ghosts through
unchanged, regardless of direction; otherwise, for opposite directions, both
leave the resolution crashed with zero speed, a freshly started crash timer,
a fire effect attached, and honking cancelled. -/
theorem C4_collision_ghost_or_crash (a b : Vehicle)
    (ha : a.hasCrashed = false) (hb : b.hasCrashed = false)
    (hov : boxesOverlap a b = true) :
    (a.isSlow = true → b.isSlow = true → resolveCollisionPair a b = (a, b)) ∧
    ((a.isSlow && b.isSlow) = false → isOppositeDirection a b = true →
      ((resolveCollisionPair a b).1.hasCrashed = true ∧
       (resolveCollisionPair a b).1.speed = 0 ∧
       (resolveCollisionPair a b).1.targetSpeed = 0 ∧
       (resolveCollisionPair a b).1.crashTimer = 0 ∧
       (resolveCollisionPair a b).1.fire.isSome = true ∧
       (resolveCollisionPair a b).1.isHonking = false) ∧
      ((resolveCollisionPair a b).2.hasCrashed = true ∧
       (resolveCollisionPair a b).2.speed = 0 ∧
       (resolveCollisionPair a b).2.targetSpeed = 0 ∧
       (resolveCollisionPair a b).2.crashTimer = 0 ∧
       (resolveCollisionPair a b).2.fire.isSome = true ∧
       (resolveCollisionPair a b).2.isHonking = false)) := by
  constructor
  · intro hsa hsb
    simp [resolveCollisionPair, ha, hb, hov, hsa, hsb]
  · intro hslow hopp
    simp [resolveCollisionPair, Vehicle.crash, ha, hb, hov, hslow, hopp]

/-- Witness for C4 at the concrete converging sampleCar / sampleBus pair. -/
theorem C4_collision_ghost_or_crash_witness :
    (sampleCar.hasCrashed = false ∧ sampleBus.hasCrashed = false ∧
      boxesOverlap sampleCar sampleBus = true) ∧
    ((sampleCar.isSlow && sampleBus.isSlow) = false →
      isOppositeDirection sampleCar sampleBus = true →
      ((resolveCollisionPair sampleCar sampleBus).1.hasCrashed = true ∧
       (resolveCollisionPair sampleCar sampleBus).1.speed = 0 ∧
       (resolveCollisionPair sampleCar sampleBus).1.targetSpeed = 0 ∧
       (resolveCollisionPair sampleCar sampleBus).1.crashTimer = 0 ∧
       (resolveCollisionPair sampleCar sampleBus).1.fire.isSome = true ∧
       (resolveCollisionPair sampleCar sampleBus).1.isHonking = false) ∧
      ((resolveCollisionPair sampleCar sampleBus).2.hasCrashed = true ∧
       (resolveCollisionPair sampleCar sampleBus).2.speed = 0 ∧
       (resolveCollisionPair sampleCar sampleBus).2.targetSpeed = 0 ∧
       (resolveCollisionPair sampleCar sampleBus).2.crashTimer = 0 ∧
       (resolveCollisionPair sampleCar sampleBus).2.fire.isSome = true ∧
       (resolveCollisionPair sampleCar sampleBus).2.isHonking = false)) :=
  ⟨⟨by decide, by decide, by norm_num [boxesOverlap, sampleCar, sampleBus]⟩,
    (C4_collision_ghost_or_crash sampleCar sampleBus
      (by decide) (by decide) (by norm_num [boxesOverlap, sampleCar, sampleBus])).2⟩

/-- Claim C7: crash is idempotent.  Crashing an already crashed vehicle
leaves the state untouched and reports that no second fire effect or crash
event was produced. -/
theorem C7_crash_idempotent (v : Vehicle) :
    Vehicle.crash (Vehicle.crash v).1 = ((Vehicle.crash v).1, false) := by
  by_cases h : v.hasCrashed
  · simp [Vehicle.crash, h]
  · simp [Vehicle.crash, h]

/-- The vehicle state produced by a first handleHit: honking stopped, waves
cleared, hit flag and timers set.  Shared shape lemma for the hit claims. -/
theorem handleHit_snd (v : Vehicle) (lvl : ℕ) (now : ℚ) (h : v.hitByPoop = false) :
    (v.handleHit lvl now).2 =
      { v with isHonking := false, soundWaves := [], hitByPoop := true,
               hitTimer := 0, hitDuration := hitDurationFor lvl } := by
  unfold Vehicle.handleHit
  simp only [h, Bool.false_eq_true, if_false]
  split
  · rfl
  · split <;> rfl

/-- A first handleHit never returns a zero delta. -/
theorem handleHit_fst_ne_zero (v : Vehicle) (lvl : ℕ) (now : ℚ)
    (h : v.hitByPoop = false) : (v.handleHit lvl now).1 ≠ 0 := by
  unfold Vehicle.handleHit
  simp only [h, Bool.false_eq_true, if_false]
  split
  · norm_num
  · split <;> norm_num

/-- Claim C10: a vehicle yields a nonzero score delta at most once.  The
first handleHit returns a nonzero delta, marks the vehicle hit and sets the
power-dependent hit duration (3, 2, 1, 1/2, 0 seconds for levels 1-5); every
later handleHit returns 0 and leaves the state untouched; the hit-timer block
of Vehicle.update removes the vehicle once the timer reaches the duration. -/
theorem C10_vehicle_scores_once (v : Vehicle) (lvl : ℕ) (now : ℚ)
    (h : v.hitByPoop = false) :
    ((v.handleHit lvl now).1 ≠ 0) ∧
    ((v.handleHit lvl now).2.hitByPoop = true) ∧
    ((v.handleHit lvl now).2.hitTimer = 0) ∧
    ((v.handleHit lvl now).2.hitDuration = hitDurationFor lvl) ∧
    (hitDurationFor 1 = 3 ∧ hitDurationFor 2 = 2 ∧ hitDurationFor 3 = 1 ∧
      hitDurationFor 4 = 1/2 ∧ hitDurationFor 5 = 0) ∧
    (∀ lvl₂ now₂,
      Vehicle.handleHit (v.handleHit lvl now).2 lvl₂ now₂ = (0, (v.handleHit lvl now).2)) ∧
    (∀ dt : ℚ, (v.handleHit lvl now).2.hitDuration ≤ dt →
      Vehicle.updateHitPhase (v.handleHit lvl now).2 dt = none) := by
  have hs := handleHit_snd v lvl now h
  refine ⟨handleHit_fst_ne_zero v lvl now h, ?_, ?_, ?_, ?_, ?_, ?_⟩
  · rw [hs]
  · rw [hs]
  · rw [hs]
  · refine ⟨rfl, rfl, rfl, rfl, rfl⟩
  · intro lvl₂ now₂
    rw [hs]
    unfold Vehicle.handleHit
    rfl
  · intro dt hdt
    rw [hs] at hdt ⊢
    unfold Vehicle.updateHitPhase
    simp only [if_true]
    have : (0 : ℚ) + dt = dt := by ring
    simp [this, hdt]

/-- Witness for C10 at the concrete sampleCar. -/
theorem C10_vehicle_scores_once_witness :
    sampleCar.hitByPoop = false ∧
    ((sampleCar.handleHit 1 0).1 ≠ 0) ∧
    (∀ lvl₂ now₂,
      Vehicle.handleHit (sampleCar.handleHit 1 0).2 lvl₂ now₂ =
        (0, (sampleCar.handleHit 1 0).2)) :=
  ⟨by decide, (C10_vehicle_scores_once sampleCar 1 0 (by decide)).1,
    (C10_vehicle_scores_once sampleCar 1 0 (by decide)).2.2.2.2.2.1⟩

/-! ## Player projectiles and power levels (src/js/bird.js) -/

/-- Projectile pattern kinds from the bird power table: single, multi, laser. -/
inductive DroppingKind where
  | single
  | multi
  | laser
  deriving DecidableEq, Repr

/-- One collidable projectile point.  For multi groups the active flag tracks
per-point deactivation (bird.js line 245); single droppings and laser points
carry active = true throughout. -/
structure Poop where
  x : ℚ
  y : ℚ
  width : ℚ
  height : ℚ
  speed : ℚ
  splashRadius : ℚ
  active : Bool
  deriving DecidableEq, Repr

/-- A top-level projectile group as created by Bird.drop (bird.js lines
163-412).  Single droppings have no sub-points; multi and laser groups carry
their sub-points, laser groups also a lifetime. -/
structure Dropping where
  kind : DroppingKind
  x : ℚ
  y : ℚ
  width : ℚ
  height : ℚ
  speed : ℚ
  splashRadius : ℚ
  poops : List Poop
  lifetime : ℚ
  deriving DecidableEq, Repr

/-- A single dropping viewed as its own collidable point, as the single
branch of the dropping filter passes the dropping object directly. -/
def Dropping.asPoop (d : Dropping) : Poop :=
  ⟨d.x, d.y, d.width, d.height, d.speed, d.splashRadius, true⟩

/-- Derived per-level stats (bird.js lines 56-63). -/
structure PowerProps where
  poopSize : ℚ
  poopCooldown : ℚ
  splashRadius : ℚ
  poopType : DroppingKind
  poopSpeed : ℚ
  poopCount : ℕ
  deriving DecidableEq, Repr

/-- The power-up table of bird.js lines 56-63, indexed by power level.  The
level is always clamped to at most 5, so the catch-all row is the level-5
row and indices above 5 are unreachable. -/
def levelProps : ℕ → PowerProps
  | 0 => ⟨10, 1, 0, DroppingKind.single, 200, 1⟩
  | 1 => ⟨15, 4/5, 20, DroppingKind.single, 250, 1⟩
  | 2 => ⟨25, 3/5, 40, DroppingKind.single, 300, 1⟩
  | 3 => ⟨20, 1/2, 60, DroppingKind.multi, 350, 3⟩
  | 4 => ⟨15, 2/5, 80, DroppingKind.multi, 400, 5⟩
  | _ => ⟨10, 3/10, 100, DroppingKind.laser, 600, 10⟩

/-- bird.js line 42: the level cap. -/
def maxPowerUpLevel : ℕ := 5

/-- Player state from the Bird constructor (bird.js lines 13-49).  Movement
flags and animation counters are omitted; the derived per-level stats are
read through levelProps, matching the cache updatePowerUpProperties keeps. -/
structure BirdState where
  x : ℚ
  y : ℚ
  width : ℚ := 48
  height : ℚ := 48
  bellyPoints : ℕ
  powerUpLevel : ℕ
  activeDropping : Option Dropping
  droppingCooldownTimer : ℚ
  deriving DecidableEq, Repr

/-- The freshly constructed bird: empty belly, level 0, no dropping, no
cooldown (bird.js lines 37-48). -/
def initialBird (x y : ℚ) : BirdState :=
  { x := x, y := y, bellyPoints := 0, powerUpLevel := 0,
    activeDropping := none, droppingCooldownTimer := 0 }

/-- bird.js lines 81-101, Bird.eatFood: belly points grow by the food value,
and the level is raised to min(belly / 5, maxPowerUpLevel) only when that
exceeds the current level. -/
def BirdState.eatFood (b : BirdState) (foodPoints : ℕ) : BirdState :=
  let belly := b.bellyPoints + foodPoints
  let newLevel := min (belly / 5) maxPowerUpLevel
  if b.powerUpLevel < newLevel then
    { b with bellyPoints := belly, powerUpLevel := newLevel }
  else
    { b with bellyPoints := belly }

/-- bird.js lines 197-225: the single dropping. -/
def createSingleDropping (b : BirdState) : Dropping :=
  let props := levelProps b.powerUpLevel
  { kind := DroppingKind.single
    x := b.x + b.width / 2
    y := b.y + b.height / 2
    width := props.poopSize
    height := props.poopSize
    speed := props.poopSpeed
    splashRadius := props.splashRadius
    poops := []
    lifetime := 0 }

/-- bird.js lines 232-325: the multi group, sub-points spaced 15 apart with
half the splash radius each. -/
def createMultiDropping (b : BirdState) : Dropping :=
  let props := levelProps b.powerUpLevel
  { kind := DroppingKind.multi
    x := b.x + b.width / 2
    y := b.y + b.height / 2
    width := props.poopSize * 3
    height := props.poopSize * 3
    speed := props.poopSpeed
    splashRadius := props.splashRadius
    poops := (List.range props.poopCount).map (fun i =>
      { x := b.x + b.width / 2 + (((i : ℤ) : ℚ) - ((props.poopCount / 2 : ℕ) : ℚ)) * 15
        y := b.y + b.height / 2
        width := props.poopSize
        height := props.poopSize
        speed := props.poopSpeed
        splashRadius := props.splashRadius / 2
        active := true })
    lifetime := 0 }

/-- bird.js lines 332-412: the laser group, ten static sub-points along a
400 long line, a third of the splash radius each, lifetime 0.6 seconds. -/
def createLaserDropping (b : BirdState) : Dropping :=
  let props := levelProps b.powerUpLevel
  { kind := DroppingKind.laser
    x := b.x + b.width / 2
    y := b.y + b.height / 2
    width := props.poopSize * 2
    height := 400
    speed := props.poopSpeed
    splashRadius := props.splashRadius
    poops := (List.range props.poopCount).map (fun i =>
      { x := b.x + b.width / 2
        y := b.y + b.height / 2 + ((i : ℚ)) * (400 / (props.poopCount : ℚ))
        width := props.poopSize
        height := props.poopSize
        speed := 0
        splashRadius := props.splashRadius / 3
        active := true })
    lifetime := 3/5 }

/-- bird.js lines 163-190, Bird.drop: rejected while a dropping is active or
the cooldown is running; otherwise one group of the current pattern kind is
created, stored and the cooldown timer set from the power table. -/
def BirdState.drop (b : BirdState) : Option Dropping × BirdState :=
  if b.activeDropping.isSome ∨ 0 < b.droppingCooldownTimer then (none, b)
  else
    let d := match (levelProps b.powerUpLevel).poopType with
      | DroppingKind.single => createSingleDropping b
      | DroppingKind.multi => createMultiDropping b
      | DroppingKind.laser => createLaserDropping b
    (some d, { b with activeDropping := some d,
                      droppingCooldownTimer := (levelProps b.powerUpLevel).poopCooldown })

/-- Claim C6: a drop request returns none exactly when a group is already
active or the cooldown has not elapsed; otherwise exactly one group of the
current pattern kind is created, stored in the single activeDropping slot
(hence at most one top-level group per player) and the cooldown starts. -/
theorem C6_drop_gating (b : BirdState) :
    ((b.drop).1 = none ↔ (b.activeDropping.isSome = true ∨ 0 < b.droppingCooldownTimer)) ∧
    (b.activeDropping = none → b.droppingCooldownTimer ≤ 0 →
      ∃ d : Dropping,
        b.drop = (some d,
          { b with activeDropping := some d,
                   droppingCooldownTimer := (levelProps b.powerUpLevel).poopCooldown }) ∧
        d.kind = (levelProps b.powerUpLevel).poopType) := by
  constructor
  · unfold BirdState.drop
    by_cases hc : b.activeDropping.isSome = true ∨ 0 < b.droppingCooldownTimer
    · simp [hc]
    · simp [hc]
  · intro ha ht
    have hc : ¬ (b.activeDropping.isSome = true ∨ 0 < b.droppingCooldownTimer) := by
      rw [ha]
      simp [not_lt.mpr ht]
    unfold BirdState.drop
    rcases hpt : (levelProps b.powerUpLevel).poopType with _ | _ | _
    · exact ⟨createSingleDropping b, by simp [hc, hpt], by rfl⟩
    · exact ⟨createMultiDropping b, by simp [hc, hpt], by rfl⟩
    · exact ⟨createLaserDropping b, by simp [hc, hpt], by rfl⟩

/-- Witness for C6 at the freshly constructed bird. -/
theorem C6_drop_gating_witness :
    (initialBird 0 0).activeDropping = none ∧
    (initialBird 0 0).droppingCooldownTimer ≤ 0 ∧
    ∃ d : Dropping,
      (initialBird 0 0).drop = (some d,
        { (initialBird 0 0) with
            activeDropping := some d,
            droppingCooldownTimer :=
              (levelProps (initialBird 0 0).powerUpLevel).poopCooldown }) ∧
      d.kind = (levelProps (initialBird 0 0).powerUpLevel).poopType :=
  ⟨rfl, le_refl 0,
    (C6_drop_gating (initialBird 0 0)).2 rfl (le_refl 0)⟩

/-- A single eatFood never lowers the power level. -/
theorem eatFood_level_le (b : BirdState) (f : ℕ) :
    b.powerUpLevel ≤ (b.eatFood f).powerUpLevel := by
  unfold BirdState.eatFood
  dsimp only
  split
  · rename_i h
    exact le_of_lt h
  · exact le_refl _

/-- Folding eatFood over any food list never lowers the power level. -/
theorem foldl_eatFood_level_le (fs : List ℕ) (b : BirdState) :
    b.powerUpLevel ≤ (fs.foldl BirdState.eatFood b).powerUpLevel := by
  induction fs generalizing b with
  | nil => exact le_refl _
  | cons f fs ih => exact le_trans (eatFood_level_le b f) (ih (b.eatFood f))

/-- Claim C8: the power level is min(belly / 5, maxLevel) and is preserved
as such by eatFood; eatFood only ever raises the level; along any trace of
eatFood operations the level at an earlier time is at most the level at a
later time. -/
theorem C8_powerLevel_monotone (b : BirdState) :
    (∀ f, b.powerUpLevel ≤ (b.eatFood f).powerUpLevel) ∧
    (b.powerUpLevel = min (b.bellyPoints / 5) maxPowerUpLevel →
      ∀ f, (b.eatFood f).powerUpLevel =
        min ((b.eatFood f).bellyPoints / 5) maxPowerUpLevel) ∧
    (∀ (fs : List ℕ) (t₁ t₂ : ℕ), t₁ ≤ t₂ →
      ((fs.take t₁).foldl BirdState.eatFood b).powerUpLevel ≤
      ((fs.take t₂).foldl BirdState.eatFood b).powerUpLevel) := by
  refine ⟨eatFood_level_le b, ?_, ?_⟩
  · intro hinv f
    unfold BirdState.eatFood
    dsimp only
    split
    · rfl
    · rename_i hnot
      have hmono : min (b.bellyPoints / 5) maxPowerUpLevel ≤
          min ((b.bellyPoints + f) / 5) maxPowerUpLevel :=
        min_le_min (Nat.div_le_div_right (Nat.le_add_right _ _)) (le_refl _)
      show b.powerUpLevel = min ((b.bellyPoints + f) / 5) maxPowerUpLevel
      omega
  · intro fs t₁ t₂ ht
    have hsplit : fs.take t₂ = fs.take t₁ ++ (fs.drop t₁).take (t₂ - t₁) := by
      rw [← List.take_add]
      congr 1
      omega
    rw [hsplit, List.foldl_append]
    exact foldl_eatFood_level_le _ _

/-- Witness for C8: the invariant holds at the fresh bird and survives one
meal, and trace monotonicity holds on a concrete trace. -/
theorem C8_powerLevel_monotone_witness :
    ((initialBird 0 0).powerUpLevel =
      min ((initialBird 0 0).bellyPoints / 5) maxPowerUpLevel ∧
      ((initialBird 0 0).eatFood 5).powerUpLevel =
        min (((initialBird 0 0).eatFood 5).bellyPoints / 5) maxPowerUpLevel) ∧
    (1 ≤ 3 ∧
      (([1, 2, 3].take 1).foldl BirdState.eatFood (initialBird 0 0)).powerUpLevel ≤
      (([1, 2, 3].take 3).foldl BirdState.eatFood (initialBird 0 0)).powerUpLevel) :=
  ⟨⟨by decide, (C8_powerLevel_monotone (initialBird 0 0)).2.1 (by decide) 5⟩,
    ⟨by decide, (C8_powerLevel_monotone (initialBird 0 0)).2.2 [1, 2, 3] 1 3 (by decide)⟩⟩

/-! ## Wave progression (src/js/game.js, first Game revision) -/

/-- The wave bookkeeping of the Game constructor (game.js lines 25-29):
wave number, per-wave vehicle quota, vehicles spawned this wave, wave timer. -/
structure WaveState where
  wave : ℕ
  vehiclesPerWave : ℕ
  vehiclesSpawned : ℕ
  waveTimer : ℚ
  deriving DecidableEq, Repr

/-- game.js line 29: 30 seconds per wave. -/
def waveDuration : ℚ := 30

/-- game.js lines 369-383, Game.startNewWave: the wave number increments,
the per-wave vehicle quota doubles, the spawn counter and wave timer reset. -/
def startNewWave (w : WaveState) : WaveState :=
  { wave := w.wave + 1
    vehiclesPerWave := w.vehiclesPerWave * 2
    vehiclesSpawned := 0
    waveTimer := 0 }

/-- game.js lines 140-143: at the top of Game.update the wave timer advances
by deltaTime and a new wave starts once it reaches waveDuration. -/
def waveTimerStep (w : WaveState) (dt : ℚ) : WaveState :=
  let w' := { w with waveTimer := w.waveTimer + dt }
  if waveDuration ≤ w'.waveTimer then startNewWave w' else w'

/-- game.js lines 273-276: near the end of Game.update a new wave starts
once the whole quota has been spawned and no live vehicle remains. -/
def waveEndOfTickStep (w : WaveState) (liveVehicles : ℕ) : WaveState :=
  if w.vehiclesPerWave ≤ w.vehiclesSpawned ∧ liveVehicles = 0 then
    startNewWave w
  else w

/-- The wave state with the constructor values of game.js lines 25-28 at a
spawn count of 7. -/
def sampleWave : WaveState := ⟨1, 10, 7, 0⟩

/-- Counterexample to C2 as stated: a wave transition from the constructor
quota of 10 yields a quota of 20, not the 10 + 2 = 12 a fixed additive
growth of +2 would give: the growth is multiplicative doubling. -/
theorem C2_wave_growth_counterexample :
    (startNewWave sampleWave).vehiclesPerWave = 20 ∧
    (startNewWave sampleWave).vehiclesPerWave ≠
      sampleWave.vehiclesPerWave + 2 := by
  constructor
  · rfl
  · decide

/-- Claim C2 (amended): the wave advances exactly when the timer reaches
waveDuration, or when the quota has been spawned and no live vehicles
remain; each transition resets the spawn counter and wave timer and doubles
the per-wave vehicle quota (multiplicative growth, not additive). -/
theorem C2_wave_transition (w : WaveState) (dt : ℚ) (live : ℕ) :
    ((waveTimerStep w dt).wave = w.wave + 1 ↔ waveDuration ≤ w.waveTimer + dt) ∧
    (¬ waveDuration ≤ w.waveTimer + dt →
      waveTimerStep w dt = { w with waveTimer := w.waveTimer + dt }) ∧
    ((waveEndOfTickStep w live).wave = w.wave + 1 ↔
      (w.vehiclesPerWave ≤ w.vehiclesSpawned ∧ live = 0)) ∧
    ((startNewWave w).wave = w.wave + 1 ∧
     (startNewWave w).vehiclesPerWave = w.vehiclesPerWave * 2 ∧
     (startNewWave w).vehiclesSpawned = 0 ∧
     (startNewWave w).waveTimer = 0) := by
  refine ⟨?_, ?_, ?_, rfl, rfl, rfl, rfl⟩
  · unfold waveTimerStep
    by_cases hc : waveDuration ≤ w.waveTimer + dt
    · simp [hc, startNewWave]
    · simp [hc]
  · intro hc
    unfold waveTimerStep
    simp [hc]
  · unfold waveEndOfTickStep
    by_cases hc : w.vehiclesPerWave ≤ w.vehiclesSpawned ∧ live = 0
    · simp [hc, startNewWave]
    · simp [hc]

/-- Witness for C2 (amended): a tick of 30 seconds from the fresh wave state
advances the wave even with only 7 of 10 vehicles spawned. -/
theorem C2_wave_transition_witness :
    waveDuration ≤ sampleWave.waveTimer + 30 ∧
    (waveTimerStep sampleWave 30).wave = sampleWave.wave + 1 :=
  ⟨by norm_num [waveDuration, sampleWave],
    ((C2_wave_transition sampleWave 30 0).1).mpr
      (by norm_num [waveDuration, sampleWave])⟩

/-! ## The orchestrator tick when the player is dead -/

/-- A food pickup (bird.js Food class, lines 602-677): position, belly value
and lifespan bookkeeping.  Only carried as data here. -/
structure Food where
  x : ℚ
  y : ℚ
  bellyPoints : ℕ
  lifespan : ℚ
  timeAlive : ℚ
  deriving DecidableEq, Repr

/-- The aggregate orchestrator state of the first Game revision (game.js
lines 10-62) as far as the per-tick update touches it.  The health-bearing
Bird revision is not under src, so the dead flag the orchestrator reads at
line 146 is carried directly. -/
structure GameState where
  score : ℤ
  waveState : WaveState
  vehicleSpawnTimer : ℚ
  foodSpawnTimer : ℚ
  emergencyMode : Bool
  emergencyVehiclesRemaining : ℕ
  bird : BirdState
  birdDead : Bool
  vehicles : List Vehicle
  foods : List Food
  droppings : List Dropping
  deriving DecidableEq, Repr

/-- Game.update on a dead bird (game.js lines 138-148): the wave-timer block
at the top still runs, then the isDead early return fires, so the complete
effect of the tick is the wave-timer step and nothing else.  Bird movement,
dropping transfer, spawning and all entity processing are skipped. -/
def gameUpdateDead (g : GameState) (dt : ℚ) : GameState :=
  { g with waveState := waveTimerStep g.waveState dt }

/-- A concrete dead game state. -/
def sampleDeadGame : GameState where
  score := 40
  waveState := ⟨2, 20, 3, 0⟩
  vehicleSpawnTimer := 0
  foodSpawnTimer := 0
  emergencyMode := false
  emergencyVehiclesRemaining := 0
  bird := initialBird 400 200
  birdDead := true
  vehicles := []
  foods := []
  droppings := []

/-- Counterexample to C9 as stated: with the bird dead, a tick still mutates
the game state, because the wave-timer block precedes the early return: one
second advances the wave timer, and a 30 second tick advances the wave
itself while the player is dead. -/
theorem C9_dead_tick_counterexample :
    sampleDeadGame.birdDead = true ∧
    gameUpdateDead sampleDeadGame 1 ≠ sampleDeadGame ∧
    (gameUpdateDead sampleDeadGame 30).waveState.wave =
      sampleDeadGame.waveState.wave + 1 := by
  refine ⟨rfl, fun h => ?_, ?_⟩
  · have h' := congrArg (fun s => s.waveState.waveTimer) h
    simp only [gameUpdateDead, waveTimerStep, waveDuration, startNewWave,
      sampleDeadGame] at h'
    norm_num at h'
  · simp only [gameUpdateDead, waveTimerStep, waveDuration, startNewWave,
      sampleDeadGame]
    norm_num

/-- Claim C9 (amended): once the bird is dead, a tick performs no movement,
no drop transfer, no spawning and no entity or score processing: every
component of the state except the wave component is unchanged, the dead flag
stays set, and only the wave timer advances (with a wave transition still
firing when it reaches waveDuration). -/
theorem C9_dead_tick_frame (g : GameState) (dt : ℚ) (h : g.birdDead = true) :
    (gameUpdateDead g dt).score = g.score ∧
    (gameUpdateDead g dt).vehicles = g.vehicles ∧
    (gameUpdateDead g dt).foods = g.foods ∧
    (gameUpdateDead g dt).droppings = g.droppings ∧
    (gameUpdateDead g dt).bird = g.bird ∧
    (gameUpdateDead g dt).birdDead = true ∧
    (gameUpdateDead g dt).vehicleSpawnTimer = g.vehicleSpawnTimer ∧
    (gameUpdateDead g dt).foodSpawnTimer = g.foodSpawnTimer ∧
    (gameUpdateDead g dt).emergencyMode = g.emergencyMode ∧
    (gameUpdateDead g dt).waveState = waveTimerStep g.waveState dt ∧
    (waveDuration ≤ g.waveState.waveTimer + dt →
      (gameUpdateDead g dt).waveState.wave = g.waveState.wave + 1) := by
  refine ⟨rfl, rfl, rfl, rfl, rfl, h, rfl, rfl, rfl, rfl, fun hd => ?_⟩
  simp [gameUpdateDead, waveTimerStep, hd, startNewWave]

/-- Witness for C9 (amended) at the concrete dead game state. -/
theorem C9_dead_tick_frame_witness :
    sampleDeadGame.birdDead = true ∧
    (gameUpdateDead sampleDeadGame 1).score = sampleDeadGame.score ∧
    (gameUpdateDead sampleDeadGame 1).vehicles = sampleDeadGame.vehicles :=
  ⟨rfl, (C9_dead_tick_frame sampleDeadGame 1 rfl).1,
    (C9_dead_tick_frame sampleDeadGame 1 rfl).2.1⟩

/-! ## Projectile-vehicle collision resolution (game.js, second revision) -/

/-- part_001 lines 1400-1410, Vehicle.checkCollision: bounding box test
between the vehicle and a projectile point, both centred. -/
def vehicleCheckCollision (v : Vehicle) (p : Poop) : Bool :=
  decide (v.x - v.width / 2 < p.x + p.width / 2) &&
  decide (v.x + v.width / 2 > p.x - p.width / 2) &&
  decide (v.y - v.height / 2 < p.y + p.height / 2) &&
  decide (v.y + v.height / 2 > p.y - p.height / 2)

/-- game.js lines 2299-2309: splash test, centre distance at most the splash
radius whenever the radius is positive, stated on squares since both sides
are nonnegative. -/
def poopSplashHit (v : Vehicle) (p : Poop) : Bool :=
  decide (0 < p.splashRadius) &&
  decide ((v.x - p.x) ^ 2 + (v.y - p.y) ^ 2 ≤ p.splashRadius ^ 2)

/-- The first pass of game.js lines 2293-2310: a vehicle is hit by a point
on a direct box overlap or by splash. -/
def poopHits (v : Vehicle) (p : Poop) : Bool :=
  vehicleCheckCollision v p || poopSplashHit v p

/-- Outcome of resolving one projectile point against the vehicle list:
the vehicles after the in-place handleHit mutations, the clamped score, the
ordered list of applied score deltas (one scoring event per hit vehicle),
and whether anything collided. -/
structure HitResult where
  vehicles : List Vehicle
  score : ℤ
  events : List ℤ
  hasCollided : Bool
  deriving DecidableEq, Repr

/-- The two passes shared by handleDroppingCollisions (game.js 2288-2344)
and checkPoopCollisionWithVehicles (2354-2415): the first pass collects the
vehicles the point hits, the second applies handleHit to each in order,
clamping the score to at least 0 after each delta. -/
def processPoopHits (lvl : ℕ) (now : ℚ) (p : Poop) (vehicles : List Vehicle)
    (score : ℤ) : HitResult :=
  let deltas := (vehicles.filter (fun v => poopHits v p)).map
    (fun v => (v.handleHit lvl now).1)
  { vehicles := vehicles.map
      (fun v => if poopHits v p then (v.handleHit lvl now).2 else v)
    score := deltas.foldl (fun s pts => max 0 (s + pts)) score
    events := deltas
    hasCollided := vehicles.any (fun v => poopHits v p) }

/-- The single branch of the dropping filter (game.js lines 1816-1821 and
2288-2344; the first revision inlines the same logic at lines 207-266): the
dropping falls by its speed, its hits resolve, and it is kept only when
nothing collided and it is still above the canvas bottom. -/
def stepSingleDropping (lvl : ℕ) (now dt canvasHeight : ℚ)
    (vehicles : List Vehicle) (score : ℤ) (d : Dropping) :
    Option Dropping × HitResult :=
  let d' := { d with y := d.y + d.speed * dt }
  let r := processPoopHits lvl now d'.asPoop vehicles score
  (if !r.hasCollided && decide (d'.y < canvasHeight) then some d' else none, r)

/-- bird.js lines 260-287: a multi sub-point falls, spreads horizontally
away from the group centre, and deactivates below the hard coded height of
800; inactive points are skipped. -/
def multiPoopUpdate (cx speed dt : ℚ) (p : Poop) : Poop :=
  if !p.active then p
  else
    let p₁ := { p with y := p.y + speed * dt }
    let p₂ :=
      if p₁.x < cx then { p₁ with x := p₁.x - (3/10) * speed * dt }
      else if cx < p₁.x then { p₁ with x := p₁.x + (3/10) * speed * dt }
      else p₁
    if 800 < p₂.y then { p₂ with active := false } else p₂

/-- bird.js lines 260-287: the multi group update; the group stays active
while some sub-point remains active on screen. -/
def multiGroupUpdate (d : Dropping) (dt : ℚ) : Bool × Dropping :=
  let poops := d.poops.map (multiPoopUpdate d.x d.speed dt)
  (poops.any (fun p => p.active), { d with poops := poops })

/-- bird.js lines 360-363: the laser group only runs down its lifetime and
stays active while the lifetime is positive. -/
def laserGroupUpdate (d : Dropping) (dt : ℚ) : Bool × Dropping :=
  (decide (0 < d.lifetime - dt), { d with lifetime := d.lifetime - dt })

/-- game.js lines 2354-2415, checkPoopCollisionWithVehicles: resolve one
sub-point without removing it from the group; only a multi parent
deactivates the point after a hit (line 2410), a laser sub-point stays live
regardless of hits. -/
def checkPoopCollisionWithVehicles (lvl : ℕ) (now : ℚ)
    (parentKind : DroppingKind) (p : Poop) (vehicles : List Vehicle)
    (score : ℤ) : Poop × HitResult :=
  let r := processPoopHits lvl now p vehicles score
  (if r.hasCollided && decide (parentKind = DroppingKind.multi) && p.active
    then { p with active := false } else p, r)

/-- Accumulated outcome of resolving every sub-point of a group. -/
structure GroupResult where
  poops : List Poop
  vehicles : List Vehicle
  score : ℤ
  events : List ℤ
  deriving DecidableEq, Repr

/-- The sub-point loop of game.js lines 1827-1836: every point of the group
goes through checkPoopCollisionWithVehicles; getPoops filters inactive
points for multi groups and returns every point for laser groups. -/
def processGroupPoops (lvl : ℕ) (now : ℚ) (kind : DroppingKind) :
    List Poop → List Vehicle → ℤ → GroupResult
  | [], vehicles, score => ⟨[], vehicles, score, []⟩
  | p :: rest, vehicles, score =>
    if kind = DroppingKind.multi ∧ p.active = false then
      let r := processGroupPoops lvl now kind rest vehicles score
      { r with poops := p :: r.poops }
    else
      let pr := checkPoopCollisionWithVehicles lvl now kind p vehicles score
      let r := processGroupPoops lvl now kind rest pr.2.vehicles pr.2.score
      { r with poops := pr.1 :: r.poops, events := pr.2.events ++ r.events }

/-- Outcome of one dropping passing through the per-tick dropping filter. -/
structure StepResult where
  kept : Option Dropping
  vehicles : List Vehicle
  score : ℤ
  events : List ℤ
  deriving DecidableEq, Repr

/-- One dropping through the per-tick filter of game.js lines 1813-1848:
singles fall and resolve through handleDroppingCollisions and are removed on
the first tick with any collision; multi and laser groups first run their
own update, then resolve every sub-point, and are kept exactly while their
own update reports them active. -/
def stepDropping (lvl : ℕ) (now dt canvasHeight : ℚ) (vehicles : List Vehicle)
    (score : ℤ) (d : Dropping) : StepResult :=
  match d.kind with
  | DroppingKind.single =>
    let r := stepSingleDropping lvl now dt canvasHeight vehicles score d
    ⟨r.1, r.2.vehicles, r.2.score, r.2.events⟩
  | DroppingKind.multi =>
    let u := multiGroupUpdate d dt
    let r := processGroupPoops lvl now DroppingKind.multi u.2.poops vehicles score
    ⟨if u.1 then some { u.2 with poops := r.poops } else none,
      r.vehicles, r.score, r.events⟩
  | DroppingKind.laser =>
    let u := laserGroupUpdate d dt
    let r := processGroupPoops lvl now DroppingKind.laser u.2.poops vehicles score
    ⟨if u.1 then some { u.2 with poops := r.poops } else none,
      r.vehicles, r.score, r.events⟩

/-- The whole droppings filter of one tick: every dropping in order, the
mutated vehicle list and the clamped score threaded through. -/
def stepDroppings (lvl : ℕ) (now dt canvasHeight : ℚ) :
    List Dropping → List Vehicle → ℤ → List Dropping × List Vehicle × ℤ
  | [], vehicles, score => ([], vehicles, score)
  | d :: rest, vehicles, score =>
    let r := stepDropping lvl now dt canvasHeight vehicles score d
    let rr := stepDroppings lvl now dt canvasHeight rest r.vehicles r.score
    (match r.kept with
      | some d' => d' :: rr.1
      | none => rr.1, rr.2.1, rr.2.2)

/-- The clamped fold keeps the score nonnegative. -/
theorem foldl_clamp_nonneg (deltas : List ℤ) (s : ℤ) (hs : 0 ≤ s) :
    0 ≤ deltas.foldl (fun acc pts => max 0 (acc + pts)) s := by
  induction deltas generalizing s with
  | nil => exact hs
  | cons d ds ih => exact ih _ (le_max_left 0 _)

/-- Resolving one point keeps the score nonnegative. -/
theorem processPoopHits_score_nonneg (lvl : ℕ) (now : ℚ) (p : Poop)
    (vehicles : List Vehicle) (score : ℤ) (hs : 0 ≤ score) :
    0 ≤ (processPoopHits lvl now p vehicles score).score :=
  foldl_clamp_nonneg _ _ hs

/-- Resolving a whole group keeps the score nonnegative. -/
theorem processGroupPoops_score_nonneg (lvl : ℕ) (now : ℚ)
    (kind : DroppingKind) (ps : List Poop) (vehicles : List Vehicle)
    (score : ℤ) (hs : 0 ≤ score) :
    0 ≤ (processGroupPoops lvl now kind ps vehicles score).score := by
  induction ps generalizing vehicles score with
  | nil => exact hs
  | cons p rest ih =>
    unfold processGroupPoops
    dsimp only
    split
    · exact ih vehicles score hs
    · exact ih _ _ (processPoopHits_score_nonneg lvl now p vehicles score hs)

/-- One dropping through the filter keeps the score nonnegative. -/
theorem stepDropping_score_nonneg (lvl : ℕ) (now dt canvasHeight : ℚ)
    (vehicles : List Vehicle) (score : ℤ) (d : Dropping) (hs : 0 ≤ score) :
    0 ≤ (stepDropping lvl now dt canvasHeight vehicles score d).score := by
  unfold stepDropping
  cases d.kind with
  | single => exact processPoopHits_score_nonneg _ _ _ _ _ hs
  | multi => exact processGroupPoops_score_nonneg _ _ _ _ _ _ hs
  | laser => exact processGroupPoops_score_nonneg _ _ _ _ _ _ hs

/-- Claim C1: every score mutation of the per-tick update is the clamp
score := max(0, score + points) inside the dropping resolution, so from a
nonnegative score (initially 0, game.js line 24) every tick returns a
nonnegative score, for every game state and every sequence of hit deltas. -/
theorem C1_score_nonneg (lvl : ℕ) (now dt canvasHeight : ℚ)
    (ds : List Dropping) (vehicles : List Vehicle) (score : ℤ)
    (hs : 0 ≤ score) :
    0 ≤ (stepDroppings lvl now dt canvasHeight ds vehicles score).2.2 := by
  induction ds generalizing vehicles score with
  | nil => exact hs
  | cons d rest ih =>
    exact ih _ _ (stepDropping_score_nonneg lvl now dt canvasHeight
      vehicles score d hs)

/-- A concrete single dropping about to land between two cars. -/
def singleTestDropping : Dropping where
  kind := DroppingKind.single
  x := 110
  y := 198
  width := 10
  height := 10
  speed := 200
  splashRadius := 0
  poops := []
  lifetime := 0

/-- Witness for C1 on a concrete one-dropping, one-vehicle tick. -/
theorem C1_score_nonneg_witness :
    (0 : ℤ) ≤ 0 ∧
    0 ≤ (stepDroppings 1 0 (1/100) 400 [singleTestDropping] [sampleCar] 0).2.2 :=
  ⟨by decide,
    C1_score_nonneg 1 0 (1/100) 400 [singleTestDropping] [sampleCar] 0 (by decide)⟩

/-- Counterexample to C5 as stated: one single-kind projectile falling onto
two overlapping fresh honking cars produces two scoring events of +5 each in
one resolver pass, so a single-kind projectile can cause more than one
scoring event. -/
theorem C5_single_multiscore_counterexample :
    singleTestDropping.kind = DroppingKind.single ∧
    (stepDropping 1 0 (1/100) 400 [sampleCar, { sampleCar with x := 140 }] 0
      singleTestDropping).events = [5, 5] := by
  refine ⟨rfl, ?_⟩
  norm_num [stepDropping, stepSingleDropping, processPoopHits, poopHits,
    vehicleCheckCollision, poopSplashHit, Dropping.asPoop, Vehicle.handleHit,
    Vehicle.isCurrentlyHonking, hitDurationFor, sampleCar, singleTestDropping,
    List.filter, List.map, List.any]
  decide

/-- Any nonempty event list from one point means something collided. -/
theorem processPoopHits_events_collided (lvl : ℕ) (now : ℚ) (p : Poop)
    (vehicles : List Vehicle) (score : ℤ)
    (h : (processPoopHits lvl now p vehicles score).events ≠ []) :
    (processPoopHits lvl now p vehicles score).hasCollided = true := by
  unfold processPoopHits at h ⊢
  dsimp only at h ⊢
  rw [ne_eq, List.map_eq_nil_iff] at h
  rw [List.any_eq_true]
  rcases List.exists_mem_of_ne_nil _ h with ⟨v, hv⟩
  rcases List.mem_filter.mp hv with ⟨hmem, hp⟩
  exact ⟨v, hmem, hp⟩

/-- Laser groups never deactivate a sub-point during resolution. -/
theorem processGroupPoops_laser_poops (lvl : ℕ) (now : ℚ) (ps : List Poop)
    (vehicles : List Vehicle) (score : ℤ) :
    (processGroupPoops lvl now DroppingKind.laser ps vehicles score).poops = ps := by
  induction ps generalizing vehicles score with
  | nil => rfl
  | cons p rest ih =>
    unfold processGroupPoops
    dsimp only
    rw [if_neg (by simp)]
    simp only [checkPoopCollisionWithVehicles]
    simp [ih]

/-- A concrete laser group with one live sub-point over the road. -/
def laserTestDropping : Dropping where
  kind := DroppingKind.laser
  x := 100
  y := 180
  width := 20
  height := 400
  speed := 600
  splashRadius := 100
  poops := [⟨100, 200, 10, 10, 0, 100/3, true⟩]
  lifetime := 3/5

/-- Claim C5 (amended): a single-kind projectile is removed at the first
tick in which it causes any scoring event, so it scores during at most one
resolver run, though that run may contain several scoring events when the
point overlaps or splashes several vehicles at once; laser-kind sub-points
are never deactivated by hits, and a concrete laser group scores a fresh
vehicle on each of two consecutive ticks. -/
theorem C5_single_one_run_laser_many (lvl : ℕ) (now dt canvasHeight : ℚ)
    (vehicles : List Vehicle) (score : ℤ) (d : Dropping) :
    (d.kind = DroppingKind.single →
      (stepDropping lvl now dt canvasHeight vehicles score d).events ≠ [] →
      (stepDropping lvl now dt canvasHeight vehicles score d).kept = none) ∧
    (∀ ps vs sc,
      (processGroupPoops lvl now DroppingKind.laser ps vs sc).poops = ps) ∧
    ((stepDropping 5 0 (1/5) 400 [sampleCar] 0 laserTestDropping).events = [5] ∧
     (stepDropping 5 0 (1/5) 400 [sampleCar] 0 laserTestDropping).kept =
       some { laserTestDropping with lifetime := 2/5 } ∧
     (stepDropping 5 0 (1/5) 400 [{ sampleCar with x := 101 }] 5
       { laserTestDropping with lifetime := 2/5 }).events = [5]) := by
  refine ⟨?_, processGroupPoops_laser_poops lvl now, ?_, ?_, ?_⟩
  · intro hk hev
    have hstep : stepDropping lvl now dt canvasHeight vehicles score d =
        ⟨(stepSingleDropping lvl now dt canvasHeight vehicles score d).1,
         (stepSingleDropping lvl now dt canvasHeight vehicles score d).2.vehicles,
         (stepSingleDropping lvl now dt canvasHeight vehicles score d).2.score,
         (stepSingleDropping lvl now dt canvasHeight vehicles score d).2.events⟩ := by
      unfold stepDropping
      rw [hk]
    rw [hstep] at hev ⊢
    dsimp only at hev ⊢
    unfold stepSingleDropping at hev ⊢
    dsimp only at hev ⊢
    have hc := processPoopHits_events_collided lvl now _ vehicles score hev
    rw [hc]
    rfl
  · norm_num [stepDropping, laserGroupUpdate, processGroupPoops,
      checkPoopCollisionWithVehicles, processPoopHits, poopHits,
      vehicleCheckCollision, poopSplashHit, Vehicle.handleHit,
      Vehicle.isCurrentlyHonking, hitDurationFor, sampleCar, laserTestDropping,
      List.filter, List.map, List.any]
    decide
  · norm_num [stepDropping, laserGroupUpdate, processGroupPoops,
      checkPoopCollisionWithVehicles, processPoopHits, poopHits,
      vehicleCheckCollision, poopSplashHit, Vehicle.handleHit,
      Vehicle.isCurrentlyHonking, hitDurationFor, sampleCar, laserTestDropping,
      List.filter, List.map, List.any]
    decide
  · norm_num [stepDropping, laserGroupUpdate, processGroupPoops,
      checkPoopCollisionWithVehicles, processPoopHits, poopHits,
      vehicleCheckCollision, poopSplashHit, Vehicle.handleHit,
      Vehicle.isCurrentlyHonking, hitDurationFor, sampleCar, laserTestDropping,
      List.filter, List.map, List.any]
    decide

/-- Witness for C5 (amended): the single projectile that scored twice in one
pass is indeed gone after that pass. -/
theorem C5_single_one_run_laser_many_witness :
    singleTestDropping.kind = DroppingKind.single ∧
    (stepDropping 1 0 (1/100) 400 [sampleCar] 0 singleTestDropping).events ≠ [] ∧
    (stepDropping 1 0 (1/100) 400 [sampleCar] 0 singleTestDropping).kept = none := by
  have hev : (stepDropping 1 0 (1/100) 400 [sampleCar] 0
      singleTestDropping).events ≠ [] := by
    norm_num [stepDropping, stepSingleDropping, processPoopHits, poopHits,
      vehicleCheckCollision, poopSplashHit, Dropping.asPoop, Vehicle.handleHit,
      Vehicle.isCurrentlyHonking, hitDurationFor, sampleCar, singleTestDropping,
      List.filter, List.map, List.any]
  exact ⟨rfl, hev,
    (C5_single_one_run_laser_many 1 0 (1/100) 400 [sampleCar] 0
      singleTestDropping).1 rfl hev⟩

end HonkPatrol
